import Mathlib

/-!
Verification of the real-time fan-out layer of the Blog-Platform repository.

The development shallowly embeds the socket layer (`setupWebSockets` in the
websockets module) together with the persisted data model (the mongoose
`Post` and `Comment` schemas).  The persistence collaborator is modelled as
an in-memory list-backed store; `save` on a new comment performs the
mongoose schema validation (content required, trimmed, maxlength 1000) and
otherwise succeeds — mongoose does not check that referenced documents
exist.  Socket.io delivery is modelled by a `Target` describing which set
of connections an `emit` call addresses, and a `deliveredTo` function
computing the recipient list from the server's room-membership state.
-/

namespace BlogRT

/-- A post document, as in the mongoose `Post` schema: we keep the fields
the live layer reads (`_id`, `status`, `likes`). `status` ranges over
"draft" | "published" | "archived". -/
structure Post where
  id : String
  status : String
  likes : List String
  deriving Repr, DecidableEq

/-- A comment document, as in the mongoose `Comment` schema. -/
structure Comment where
  id : String
  content : String
  author : String
  post : String
  parentComment : Option String
  likes : List String
  isEdited : Bool
  deriving Repr, DecidableEq

/-- The document store: the `posts` and `comments` collections. -/
structure DB where
  posts : List Post
  comments : List Comment
  deriving Repr, DecidableEq

/-- `Post.findById`. -/
def DB.findPost (db : DB) (id : String) : Option Post :=
  db.posts.find? (fun p => p.id = id)

/-- `Comment.findById`. -/
def DB.findComment (db : DB) (id : String) : Option Comment :=
  db.comments.find? (fun c => c.id = id)

/-- Replace the stored post having the id of `p` by `p` (the effect of
`post.save()` on an already-loaded document). -/
def DB.updatePost (db : DB) (p : Post) : DB :=
  { db with posts := db.posts.map (fun q => if q.id = p.id then p else q) }

/-- Replace the stored comment having the id of `c` by `c`. -/
def DB.updateComment (db : DB) (c : Comment) : DB :=
  { db with comments := db.comments.map (fun q => if q.id = c.id then c else q) }

/-- `Comment.findByIdAndDelete`: removes the first (unique) comment with
that id; succeeds silently when no such comment exists. -/
def DB.deleteComment (db : DB) (id : String) : DB :=
  { db with comments := db.comments.eraseP (fun c => c.id = id) }

/-- Whitespace trimming from both ends of a string, as performed by the
mongoose `trim: true` setter (JavaScript `String.prototype.trim`). -/
def strTrim (s : String) : String :=
  ⟨(((s.data.dropWhile Char.isWhitespace).reverse).dropWhile
      Char.isWhitespace).reverse⟩

/-- Mongoose validation of `commentSchema.content`: the value is trimmed by
the `trim: true` setter, then `required: true` rejects an empty string and
`maxlength: 1000` bounds its length. -/
def commentContentValid (content : String) : Bool :=
  strTrim content ≠ "" && (strTrim content).length ≤ 1000

/-- `comment.save()` on a newly constructed comment: runs schema validation
(content only — mongoose does not verify that the referenced post, author
or parent comment exist) and appends the document, with its content
trimmed, to the collection. -/
def DB.saveNewComment (db : DB) (c : Comment) : Except String DB :=
  if commentContentValid c.content then
    Except.ok { db with
      comments := db.comments ++ [{ c with content := strTrim c.content }] }
  else
    Except.error "ValidationError"

/-- The identity bound to an authenticated socket (`socket.userId`,
`socket.username`). -/
structure SocketId where
  userId : String
  username : String
  deriving Repr, DecidableEq

/-- Which set of connections an emit call addresses. -/
inductive Target where
  /-- `socket.emit`: the sender alone. -/
  | toSender : Target
  /-- `io.to(room).emit`: every member of the room, sender included when a member. -/
  | roomAll : String → Target
  /-- `socket.to(room).emit`: every member of the room except the sender. -/
  | roomExceptSender : String → Target
  /-- `socket.broadcast.emit`: every connection except the sender. -/
  | broadcastExceptSender : Target
  /-- `io.emit`: every connection. -/
  | allConnections : Target
  deriving Repr, DecidableEq

/-- Payloads of the outbound events the embedded handlers emit. -/
inductive Payload where
  | commentAdded : Comment → String → Payload
  | commentUpdated : Comment → String → Payload
  | commentDeleted : String → String → Payload
  | postLikesUpdated : String → Nat → String → Payload
  | commentLikesUpdated : String → String → Nat → String → Payload
  | userTyping : String → String → String → Payload
  | userStoppedTyping : String → String → Payload
  | userStatus : String → String → String → Payload
  | commentError : String → Payload
  | postError : String → Payload
  | messageError : String → Payload
  deriving Repr, DecidableEq

/-- One `emit` call: its addressing mode, event name and payload. -/
structure Emission where
  target : Target
  event : String
  payload : Payload
  deriving Repr, DecidableEq

/-- The socket server's connection/room state: the connected socket ids and
the room-membership pairs (connection, room). -/
structure ServerState where
  connections : List String
  memberships : List (String × String)
  deriving Repr, DecidableEq

/-- `socket.join(room)`: idempotent addition of a membership pair. -/
def ServerState.joinRoom (st : ServerState) (conn room : String) : ServerState :=
  if (conn, room) ∈ st.memberships then st
  else { st with memberships := st.memberships ++ [(conn, room)] }

/-- `socket.leave(room)`: idempotent removal of a membership pair. -/
def ServerState.leaveRoom (st : ServerState) (conn room : String) : ServerState :=
  { st with memberships := st.memberships.filter (fun m => m ≠ (conn, room)) }

/-- The connections an emission from `sender` with the given target is
delivered to, per socket.io semantics. -/
def deliveredTo (st : ServerState) (sender : String) : Target → List String
  | Target.toSender => [sender]
  | Target.roomAll room =>
      st.connections.filter (fun c => (c, room) ∈ st.memberships)
  | Target.roomExceptSender room =>
      st.connections.filter (fun c => c ≠ sender && (c, room) ∈ st.memberships)
  | Target.broadcastExceptSender =>
      st.connections.filter (fun c => c ≠ sender)
  | Target.allConnections => st.connections

/-! ### Event handlers (from `setupWebSockets`)

Each handler is a pure function from the store, the socket's bound
identity and the event payload to the updated store and the list of emit
calls the handler performs, in order. -/

/-- Payload of the inbound `new-comment` event. -/
structure NewCommentData where
  postId : String
  content : String
  parentComment : Option String
  deriving Repr, DecidableEq

/-- Payload of the inbound `update-comment` event. -/
structure UpdateCommentData where
  commentId : String
  content : String
  postId : String
  deriving Repr, DecidableEq

/-- Payload of the inbound `delete-comment` event. -/
structure DeleteCommentData where
  commentId : String
  postId : String
  deriving Repr, DecidableEq

/-- Payload of the inbound `post-like` event; `action` is "like" or "unlike". -/
structure PostLikeData where
  postId : String
  action : String
  deriving Repr, DecidableEq

/-- Payload of the inbound `comment-like` event. -/
structure CommentLikeData where
  commentId : String
  postId : String
  action : String
  deriving Repr, DecidableEq

/-- Payload of the inbound `typing-start` event; `kind` is the `type`
field, "comment" or "reply". -/
structure TypingStartData where
  postId : String
  kind : String
  deriving Repr, DecidableEq

/-- The id the store assigns to a newly inserted comment (mongo generates
an ObjectId; only freshness matters to the live layer, which treats ids as
opaque strings). -/
def DB.freshCommentId (db : DB) : String :=
  "c" ++ toString db.comments.length

/-- The `new-comment` handler: constructs the comment with
`author = socket.userId` and saves it; on success broadcasts
`comment-added` to the whole room `post-<postId>` via `io.to(...)`; if
`save` throws, emits `comment-error` to the sender alone.  No check of the
referenced post (existence or published status) or of the parent comment
is performed. -/
def newCommentHandler (db : DB) (s : SocketId) (d : NewCommentData) :
    DB × List Emission :=
  let c : Comment :=
    { id := db.freshCommentId, content := d.content, author := s.userId,
      post := d.postId, parentComment := d.parentComment,
      likes := [], isEdited := false }
  match db.saveNewComment c with
  | Except.ok db2 =>
      (db2, [⟨Target.roomAll ("post-" ++ d.postId), "comment-added",
              Payload.commentAdded { c with content := strTrim c.content } d.postId⟩])
  | Except.error _ =>
      (db, [⟨Target.toSender, "comment-error",
             Payload.commentError "Failed to add comment"⟩])

/-- The `update-comment` handler: `Comment.findByIdAndUpdate` sets the
content and the edited flag; when the comment exists the updated document
is broadcast to the room; when it does not exist (`comment` is null)
nothing at all is emitted. -/
def updateCommentHandler (db : DB) (_s : SocketId) (d : UpdateCommentData) :
    DB × List Emission :=
  match db.findComment d.commentId with
  | none => (db, [])
  | some c =>
      let c2 := { c with content := d.content, isEdited := true }
      (db.updateComment c2,
       [⟨Target.roomAll ("post-" ++ d.postId), "comment-updated",
         Payload.commentUpdated c2 d.postId⟩])

/-- The `delete-comment` handler: `Comment.findByIdAndDelete` (which
succeeds silently when no such comment exists) followed unconditionally by
a `comment-deleted` broadcast to the room carrying the client-supplied
`commentId`. -/
def deleteCommentHandler (db : DB) (_s : SocketId) (d : DeleteCommentData) :
    DB × List Emission :=
  (db.deleteComment d.commentId,
   [⟨Target.roomAll ("post-" ++ d.postId), "comment-deleted",
     Payload.commentDeleted d.commentId d.postId⟩])

/-- The like-toggle logic shared verbatim by the `post-like` and
`comment-like` handlers: on "like", push the identity unless already
included; otherwise (`unlike`), `indexOf` + `splice` removes the first
occurrence when present. -/
def applyLikeAction (likes : List String) (uid : String) (action : String) :
    List String :=
  if action = "like" then
    if likes.contains uid then likes else likes ++ [uid]
  else
    likes.erase uid

/-- The `post-like` handler: when the post is missing the handler returns
with no emission; otherwise it toggles the caller in the post's like list,
saves, and broadcasts `post-likes-updated` with the list's length to the
room via `io.to(...)`. -/
def postLikeHandler (db : DB) (s : SocketId) (d : PostLikeData) :
    DB × List Emission :=
  match db.findPost d.postId with
  | none => (db, [])
  | some post =>
      let newLikes := applyLikeAction post.likes s.userId d.action
      let post2 := { post with likes := newLikes }
      (db.updatePost post2,
       [⟨Target.roomAll ("post-" ++ d.postId), "post-likes-updated",
         Payload.postLikesUpdated d.postId newLikes.length d.action⟩])

/-- The `comment-like` handler: same shape as `post-like`, on a comment. -/
def commentLikeHandler (db : DB) (s : SocketId) (d : CommentLikeData) :
    DB × List Emission :=
  match db.findComment d.commentId with
  | none => (db, [])
  | some c =>
      let newLikes := applyLikeAction c.likes s.userId d.action
      let c2 := { c with likes := newLikes }
      (db.updateComment c2,
       [⟨Target.roomAll ("post-" ++ d.postId), "comment-likes-updated",
         Payload.commentLikesUpdated d.commentId d.postId newLikes.length d.action⟩])

/-- The `typing-start` handler: `socket.to(room).emit`, i.e. every room
member except the sender, carrying the sender's identity and the typing
type; nothing is persisted. -/
def typingStartHandler (s : SocketId) (d : TypingStartData) : List Emission :=
  [⟨Target.roomExceptSender ("post-" ++ d.postId), "user-typing",
    Payload.userTyping s.userId s.username d.kind⟩]

/-- The `user-online` handler: `socket.broadcast.emit`, i.e. every
connection except the sender, carrying status "online". -/
def userOnlineHandler (s : SocketId) : List Emission :=
  [⟨Target.broadcastExceptSender, "user-status",
    Payload.userStatus s.userId s.username "online"⟩]

/-! ### Session authentication (`io.use` middleware) -/

/-- Outcome of the handshake middleware: either the connection is refused
with an error message, or the resolved identity is bound to the socket. -/
inductive AuthResult where
  | refused : String → AuthResult
  | accepted : SocketId → AuthResult
  deriving Repr, DecidableEq

/-- The `io.use` authentication middleware.  `token` is
`socket.handshake.auth.token`; `verify` abstracts `jwt.verify` (none when
verification throws, otherwise the decoded `userId`); `findUsername`
abstracts `User.findById(..).select('username')`.  A missing token or a
verification failure refuse the connection with "Authentication error"; a
verified token whose user id matches no stored user refuses it with "User
not found"; otherwise the resolved id and username are bound to the
socket. -/
def authMiddleware (token : Option String) (verify : String → Option String)
    (findUsername : String → Option String) : AuthResult :=
  match token with
  | none => AuthResult.refused "Authentication error"
  | some t =>
      match verify t with
      | none => AuthResult.refused "Authentication error"
      | some uid =>
          match findUsername uid with
          | none => AuthResult.refused "User not found"
          | some name => AuthResult.accepted ⟨uid, name⟩

/-! ### Lemmas on the like-toggle logic -/

theorem applyLikeAction_like_of_mem (likes : List String) (u : String)
    (h : u ∈ likes) : applyLikeAction likes u "like" = likes := by
  simp [applyLikeAction, h]

theorem applyLikeAction_like_of_not_mem (likes : List String) (u : String)
    (h : u ∉ likes) : applyLikeAction likes u "like" = likes ++ [u] := by
  simp [applyLikeAction, h]

theorem applyLikeAction_unlike_eq_erase (likes : List String) (u : String) :
    applyLikeAction likes u "unlike" = likes.erase u := by
  simp [applyLikeAction]

theorem applyLikeAction_unlike_of_not_mem (likes : List String) (u : String)
    (h : u ∉ likes) : applyLikeAction likes u "unlike" = likes := by
  rw [applyLikeAction_unlike_eq_erase, List.erase_of_not_mem h]

theorem applyLikeAction_nodup (likes : List String) (u a : String)
    (h : likes.Nodup) : (applyLikeAction likes u a).Nodup := by
  unfold applyLikeAction
  split
  · split
    · exact h
    · rename_i hm
      have hu : u ∉ likes := by simpa using hm
      simp [List.nodup_append, h, hu]
  · exact h.erase u

theorem applyLikeAction_like_unlike (likes : List String) (u : String)
    (h : u ∉ likes) :
    applyLikeAction (applyLikeAction likes u "like") u "unlike" = likes := by
  rw [applyLikeAction_like_of_not_mem likes u h,
      applyLikeAction_unlike_eq_erase,
      List.erase_append_right [u] h, List.erase_cons_head]
  simp

theorem applyLikeAction_unlike_like (likes : List String) (u : String)
    (hnd : likes.Nodup) (h : u ∈ likes) :
    (∀ x, x ∈ applyLikeAction (applyLikeAction likes u "unlike") u "like" ↔
      x ∈ likes) ∧
    (applyLikeAction (applyLikeAction likes u "unlike") u "like").length =
      likes.length := by
  have hu : u ∉ likes.erase u := by
    intro hx
    exact (hnd.mem_erase_iff.mp hx).1 rfl
  rw [applyLikeAction_unlike_eq_erase,
      applyLikeAction_like_of_not_mem _ u hu]
  constructor
  · intro x
    by_cases hx : x = u <;>
      simp [hx, h, List.mem_append, hnd.mem_erase_iff]
  · have hpos : 0 < likes.length := List.length_pos.mpr (List.ne_nil_of_mem h)
    simp [List.length_append, List.length_erase_of_mem h]
    omega

end BlogRT

namespace BlogRT

/-! ### Claim theorems -/

/-- C3, counterexample: starting from post "p1" whose like list already
contains the caller "u1", the sequence `post-like{action:"like"}` then
`post-like{action:"unlike"}` by "u1" ends with an empty like list, not the
original membership: "u1" was a member before the round trip and is not
afterwards. -/
theorem C3_like_toggle_roundtrip_counterexample :
    "u1" ∈ (Post.mk "p1" "published" ["u1"]).likes ∧
    (postLikeHandler
        ((postLikeHandler ⟨[⟨"p1", "published", ["u1"]⟩], []⟩ ⟨"u1", "alice"⟩
            ⟨"p1", "like"⟩).1)
        ⟨"u1", "alice"⟩ ⟨"p1", "unlike"⟩).1.findPost "p1" =
      some ⟨"p1", "published", []⟩ ∧
    "u1" ∉ (Post.mk "p1" "published" []).likes := by
  decide

/-- C3 (amended): the like toggle round trip restores the original like
list when the first action is effective — a `like` followed by an `unlike`
restores the list exactly when the identity was not initially a member,
and an `unlike` followed by a `like` restores the original membership and
count when the identity was initially a member of a duplicate-free list. -/
theorem C3_like_toggle_roundtrip (likes : List String) (u : String)
    (hnd : likes.Nodup) :
    (u ∉ likes →
      applyLikeAction (applyLikeAction likes u "like") u "unlike" = likes) ∧
    (u ∈ likes →
      (∀ x, x ∈ applyLikeAction (applyLikeAction likes u "unlike") u "like" ↔
        x ∈ likes) ∧
      (applyLikeAction (applyLikeAction likes u "unlike") u "like").length =
        likes.length) :=
  ⟨fun h => applyLikeAction_like_unlike likes u h,
   fun h => applyLikeAction_unlike_like likes u hnd h⟩

/-- Witness for C3's amended theorem at a concrete input. -/
theorem C3_like_toggle_roundtrip_witness :
    applyLikeAction (applyLikeAction ["a"] "u" "like") "u" "unlike" = ["a"] :=
  (C3_like_toggle_roundtrip ["a"] "u" (by decide)).1 (by decide)

/-- C4: like-set invariants of the `post-like`/`comment-like` handlers —
the toggled like list stays duplicate-free, a `like` by an identity
already present changes nothing, an `unlike` by an absent identity changes
nothing, and the broadcast `likes` value equals the cardinality of the
resulting like set (the list's length, which for a duplicate-free list is
its cardinality as a finite set), never a client-supplied number. -/
theorem C4_like_set_invariants (db : DB) (s : SocketId) (d : PostLikeData)
    (post : Post) (hfind : db.findPost d.postId = some post)
    (hnd : post.likes.Nodup) :
    (applyLikeAction post.likes s.userId d.action).Nodup ∧
    (s.userId ∈ post.likes →
      applyLikeAction post.likes s.userId "like" = post.likes) ∧
    (s.userId ∉ post.likes →
      applyLikeAction post.likes s.userId "unlike" = post.likes) ∧
    (postLikeHandler db s d).2 =
      [⟨Target.roomAll ("post-" ++ d.postId), "post-likes-updated",
        Payload.postLikesUpdated d.postId
          (applyLikeAction post.likes s.userId d.action).toFinset.card
          d.action⟩] ∧
    (∀ (d2 : CommentLikeData) (c : Comment),
      db.findComment d2.commentId = some c → c.likes.Nodup →
      (commentLikeHandler db s d2).2 =
        [⟨Target.roomAll ("post-" ++ d2.postId), "comment-likes-updated",
          Payload.commentLikesUpdated d2.commentId d2.postId
            (applyLikeAction c.likes s.userId d2.action).toFinset.card
            d2.action⟩]) := by
  refine ⟨applyLikeAction_nodup post.likes s.userId d.action hnd,
    fun h => applyLikeAction_like_of_mem post.likes s.userId h,
    fun h => applyLikeAction_unlike_of_not_mem post.likes s.userId h,
    ?_, ?_⟩
  · rw [List.toFinset_card_of_nodup
      (applyLikeAction_nodup post.likes s.userId d.action hnd)]
    simp [postLikeHandler, hfind]
  · intro d2 c hc hcnd
    rw [List.toFinset_card_of_nodup
      (applyLikeAction_nodup c.likes s.userId d2.action hcnd)]
    simp [commentLikeHandler, hc]

/-- Witness for C4 at a concrete store and event. -/
theorem C4_like_set_invariants_witness :
    (applyLikeAction ["a"] "u1" "like").Nodup :=
  (C4_like_set_invariants ⟨[⟨"p1", "published", ["a"]⟩], []⟩ ⟨"u1", "nina"⟩
      ⟨"p1", "like"⟩ ⟨"p1", "published", ["a"]⟩ (by decide) (by decide)).1

/-- C1, code-bug evidence: the live-channel `new-comment` handler performs
none of the reference checks of the REST create-comment route — on a store
whose only post "draft1" has status "draft", a `new-comment` for "draft1"
is persisted and broadcast as `comment-added` to the room; the same
happens when neither the referenced post nor the supplied `parentComment`
exists at all. -/
theorem C1_new_comment_skips_reference_checks :
    ((⟨[⟨"draft1", "draft", []⟩], []⟩ : DB).findPost "draft1" =
        some ⟨"draft1", "draft", []⟩) ∧
    (newCommentHandler ⟨[⟨"draft1", "draft", []⟩], []⟩ ⟨"u1", "alice"⟩
        ⟨"draft1", "hello world", none⟩) =
      (⟨[⟨"draft1", "draft", []⟩],
        [⟨"c0", "hello world", "u1", "draft1", none, [], false⟩]⟩,
       [⟨Target.roomAll "post-draft1", "comment-added",
         Payload.commentAdded
           ⟨"c0", "hello world", "u1", "draft1", none, [], false⟩
           "draft1"⟩]) ∧
    ((⟨[], []⟩ : DB).findPost "ghost" = none ∧
     (⟨[], []⟩ : DB).findComment "nopar" = none ∧
     ((newCommentHandler ⟨[], []⟩ ⟨"u1", "alice"⟩
         ⟨"ghost", "hello world", some "nopar"⟩).2.map Emission.event) =
       ["comment-added"]) := by
  decide

/-- C2, counterexample: on an empty store, `post-like`, `comment-like` and
`update-comment` referencing missing entities emit nothing at all — no
`post-error` or `comment-error` reaches the sender, contradicting the
claim that the failure is never silent. -/
theorem C2_notfound_is_silent_counterexample :
    ((⟨[], []⟩ : DB).findPost "p1" = none ∧
     (⟨[], []⟩ : DB).findComment "c1" = none) ∧
    postLikeHandler ⟨[], []⟩ ⟨"u1", "alice"⟩ ⟨"p1", "like"⟩ =
      (⟨[], []⟩, []) ∧
    commentLikeHandler ⟨[], []⟩ ⟨"u1", "alice"⟩ ⟨"c1", "p1", "like"⟩ =
      (⟨[], []⟩, []) ∧
    updateCommentHandler ⟨[], []⟩ ⟨"u1", "alice"⟩ ⟨"c1", "hi", "p1"⟩ =
      (⟨[], []⟩, []) := by
  decide

/-- C2 (amended): when the referenced post or comment of a `post-like`,
`comment-like` or `update-comment` event does not exist, the handler
leaves the store unchanged and emits nothing — the failure is silent
rather than reported via a scoped error event (scoped error events are
emitted only when a persistence call throws), and the channel is not
disconnected. -/
theorem C2_notfound_silent_no_mutation (db : DB) (s : SocketId) :
    (∀ d : PostLikeData, db.findPost d.postId = none →
      postLikeHandler db s d = (db, [])) ∧
    (∀ d : CommentLikeData, db.findComment d.commentId = none →
      commentLikeHandler db s d = (db, [])) ∧
    (∀ d : UpdateCommentData, db.findComment d.commentId = none →
      updateCommentHandler db s d = (db, [])) := by
  refine ⟨?_, ?_, ?_⟩ <;> intro d h <;>
    simp [postLikeHandler, commentLikeHandler, updateCommentHandler, h]

/-- Witness for C2's amended theorem at a concrete store and event. -/
theorem C2_notfound_silent_no_mutation_witness :
    postLikeHandler ⟨[], [⟨"c1", "x", "a", "p", none, [], false⟩]⟩
        ⟨"u9", "zoe"⟩ ⟨"p7", "like"⟩ =
      (⟨[], [⟨"c1", "x", "a", "p", none, [], false⟩]⟩, []) :=
  (C2_notfound_silent_no_mutation ⟨[], [⟨"c1", "x", "a", "p", none, [], false⟩]⟩
      ⟨"u9", "zoe"⟩).1 ⟨"p7", "like"⟩ (by decide)

/-- C5: a successfully persisted `new-comment` produces exactly one
emission — an `io.to("post-" ++ postId)` broadcast of `comment-added` —
and such a broadcast is delivered to precisely the connections currently
joined to that room (with no exception made for the sender, which is a
recipient exactly when it joined); a connection that executed `join-post`
is a member of the room. -/
theorem C5_comment_added_room_delivery (db : DB) (s : SocketId)
    (d : NewCommentData) (st : ServerState) (sender : String)
    (hok : commentContentValid d.content = true) :
    ((newCommentHandler db s d).2.map Emission.target =
      [Target.roomAll ("post-" ++ d.postId)]) ∧
    ((newCommentHandler db s d).2.map Emission.event = ["comment-added"]) ∧
    (∀ conn,
      conn ∈ deliveredTo st sender (Target.roomAll ("post-" ++ d.postId)) ↔
        conn ∈ st.connections ∧
          (conn, "post-" ++ d.postId) ∈ st.memberships) ∧
    (∀ conn room, (conn, room) ∈ (st.joinRoom conn room).memberships) := by
  refine ⟨?_, ?_, ?_, ?_⟩
  · simp [newCommentHandler, DB.saveNewComment, hok]
  · simp [newCommentHandler, DB.saveNewComment, hok]
  · intro conn
    simp [deliveredTo, List.mem_filter]
  · intro conn room
    unfold ServerState.joinRoom
    split
    · rename_i hmem
      exact hmem
    · simp

/-- Witness for C5 at a concrete store, event and room state. -/
theorem C5_comment_added_room_delivery_witness :
    "a" ∈ deliveredTo ⟨["a", "b", "c"], [("a", "post-" ++ "42")]⟩ "b"
        (Target.roomAll ("post-" ++ "42")) ↔
      "a" ∈ (["a", "b", "c"] : List String) ∧
        (("a", "post-" ++ "42") : String × String) ∈
          [(("a" : String), "post-" ++ "42")] :=
  (C5_comment_added_room_delivery ⟨[], []⟩ ⟨"u2", "bea"⟩
      ⟨"42", "hello world, this is a test comment body", none⟩
      ⟨["a", "b", "c"], [("a", "post-" ++ "42")]⟩ "b" (by decide)).2.2.1 "a"

/-- C6: a `new-comment` whose content is empty after trimming or longer
than 1000 characters fails mongoose validation at `save`; the handler then
leaves the store unchanged and emits only `comment-error` to the sender —
no room broadcast — and a `toSender` emission is delivered to the sender
alone. -/
theorem C6_invalid_content_scoped_error (db : DB) (s : SocketId)
    (d : NewCommentData) (st : ServerState) (sender : String)
    (hbad : strTrim d.content = "" ∨ 1000 < (strTrim d.content).length) :
    newCommentHandler db s d =
      (db, [⟨Target.toSender, "comment-error",
            Payload.commentError "Failed to add comment"⟩]) ∧
    deliveredTo st sender Target.toSender = [sender] := by
  have hval : commentContentValid d.content = false := by
    unfold commentContentValid
    rcases hbad with h | h
    · simp [h]
    · have h2 : ¬ (strTrim d.content).length ≤ 1000 := by omega
      simp [h2]
  refine ⟨?_, rfl⟩
  simp [newCommentHandler, DB.saveNewComment, hval]

/-- Witness for C6 at a concrete event with whitespace-only content. -/
theorem C6_invalid_content_scoped_error_witness :
    newCommentHandler ⟨[⟨"p1", "published", []⟩], []⟩ ⟨"u1", "bo"⟩
        ⟨"p1", "   ", none⟩ =
      (⟨[⟨"p1", "published", []⟩], []⟩,
       [⟨Target.toSender, "comment-error",
         Payload.commentError "Failed to add comment"⟩]) ∧
    deliveredTo ⟨["s", "t"], []⟩ "s" Target.toSender = ["s"] :=
  C6_invalid_content_scoped_error ⟨[⟨"p1", "published", []⟩], []⟩ ⟨"u1", "bo"⟩
    ⟨"p1", "   ", none⟩ ⟨["s", "t"], []⟩ "s" (Or.inl (by decide))

/-- C7: `typing-start` emits exactly one `user-typing` event via
`socket.to(room)`, carrying the sender's id, username and typing type; the
delivery of such an emission never includes the sender, and includes any
other connection exactly when it is currently a member of the room. -/
theorem C7_typing_start_excludes_sender (s : SocketId) (d : TypingStartData)
    (st : ServerState) (sender : String) :
    typingStartHandler s d =
      [⟨Target.roomExceptSender ("post-" ++ d.postId), "user-typing",
        Payload.userTyping s.userId s.username d.kind⟩] ∧
    sender ∉ deliveredTo st sender
      (Target.roomExceptSender ("post-" ++ d.postId)) ∧
    (∀ conn, conn ≠ sender →
      (conn ∈ deliveredTo st sender
          (Target.roomExceptSender ("post-" ++ d.postId)) ↔
        conn ∈ st.connections ∧
          (conn, "post-" ++ d.postId) ∈ st.memberships)) := by
  refine ⟨rfl, ?_, ?_⟩
  · simp [deliveredTo, List.mem_filter]
  · intro conn hne
    simp [deliveredTo, List.mem_filter, hne]

/-- Witness for C7 at a concrete room state: co-member "b" receives the
typing signal the sender "a" does not. -/
theorem C7_typing_start_excludes_sender_witness :
    "b" ∈ deliveredTo ⟨["a", "b"], [("b", "post-" ++ "p1")]⟩ "a"
        (Target.roomExceptSender ("post-" ++ "p1")) ↔
      "b" ∈ (["a", "b"] : List String) ∧
        (("b", "post-" ++ "p1") : String × String) ∈
          [(("b" : String), "post-" ++ "p1")] :=
  (C7_typing_start_excludes_sender ⟨"u1", "ann"⟩ ⟨"p1", "comment"⟩
      ⟨["a", "b"], [("b", "post-" ++ "p1")]⟩ "a").2.2 "b" (by decide)

/-- C8, counterexample: `user-online` uses `socket.broadcast.emit`, which
excludes the sender — with connections "a" and "b" and sender "a", the
`user-status` broadcast reaches only "b", so it is not delivered to all
connections as claimed. -/
theorem C8_user_online_counterexample :
    userOnlineHandler ⟨"u1", "alice"⟩ =
      [⟨Target.broadcastExceptSender, "user-status",
        Payload.userStatus "u1" "alice" "online"⟩] ∧
    deliveredTo ⟨["a", "b"], []⟩ "a" Target.broadcastExceptSender = ["b"] ∧
    "a" ∈ (ServerState.mk ["a", "b"] []).connections := by
  decide

/-- C8 (amended): the `user-status{status:"online"}` broadcast triggered
by `user-online` is global — it reaches every connection other than the
sender, regardless of any room membership — but the sender itself is
excluded. -/
theorem C8_user_online_global_broadcast (s : SocketId) (st : ServerState)
    (sender : String) :
    userOnlineHandler s =
      [⟨Target.broadcastExceptSender, "user-status",
        Payload.userStatus s.userId s.username "online"⟩] ∧
    (∀ conn, conn ∈ deliveredTo st sender Target.broadcastExceptSender ↔
      conn ∈ st.connections ∧ conn ≠ sender) := by
  refine ⟨rfl, ?_⟩
  intro conn
  simp [deliveredTo, List.mem_filter]

/-- Witness for C8's amended theorem at a concrete connection state. -/
theorem C8_user_online_global_broadcast_witness :
    "b" ∈ deliveredTo ⟨["a", "b"], [("a", "r1")]⟩ "a"
        Target.broadcastExceptSender ↔
      "b" ∈ (["a", "b"] : List String) ∧ "b" ≠ "a" :=
  (C8_user_online_global_broadcast ⟨"u1", "alice"⟩ ⟨["a", "b"], [("a", "r1")]⟩
      "a").2 "b"

/-- C9: the handshake middleware refuses the connection when the token is
missing, when verification fails, or when the resolved user id matches no
stored user; a valid credential binds the resolved user id and username to
the socket. -/
theorem C9_handshake_authentication (verify findUsername : String → Option String)
    (t uid name : String) :
    authMiddleware none verify findUsername =
      AuthResult.refused "Authentication error" ∧
    (verify t = none →
      authMiddleware (some t) verify findUsername =
        AuthResult.refused "Authentication error") ∧
    (verify t = some uid → findUsername uid = none →
      authMiddleware (some t) verify findUsername =
        AuthResult.refused "User not found") ∧
    (verify t = some uid → findUsername uid = some name →
      authMiddleware (some t) verify findUsername =
        AuthResult.accepted ⟨uid, name⟩) := by
  refine ⟨rfl, ?_, ?_, ?_⟩
  · intro hv
    simp [authMiddleware, hv]
  · intro hv hf
    simp [authMiddleware, hv, hf]
  · intro hv hf
    simp [authMiddleware, hv, hf]

/-- Witness for C9 at concrete credential resolvers. -/
theorem C9_handshake_authentication_witness :
    authMiddleware (some "tok") (fun _ => some "u1") (fun _ => some "alice") =
      AuthResult.accepted ⟨"u1", "alice"⟩ :=
  (C9_handshake_authentication (fun _ => some "u1") (fun _ => some "alice")
      "tok" "u1" "alice").2.2.2 rfl rfl

/-- C10: `delete-comment` always broadcasts `comment-deleted` to the room
with the client-supplied commentId — `findByIdAndDelete` never throws on a
missing id — and when no comment with that id exists the store is left
unchanged, so room members observe a deletion confirmation for a comment
that was never present. -/
theorem C10_delete_comment_always_broadcasts (db : DB) (s : SocketId)
    (d : DeleteCommentData) :
    (deleteCommentHandler db s d).2 =
      [⟨Target.roomAll ("post-" ++ d.postId), "comment-deleted",
        Payload.commentDeleted d.commentId d.postId⟩] ∧
    (db.findComment d.commentId = none →
      (deleteCommentHandler db s d).1 = db) := by
  refine ⟨rfl, ?_⟩
  intro h
  have h2 : db.comments.eraseP (fun c => c.id = d.commentId) = db.comments :=
    List.eraseP_of_forall_not (List.find?_eq_none.mp h)
  simp [deleteCommentHandler, DB.deleteComment, h2]

/-- Witness for C10 at a concrete store lacking the comment. -/
theorem C10_delete_comment_always_broadcasts_witness :
    (deleteCommentHandler ⟨[], []⟩ ⟨"u", "nat"⟩ ⟨"c9", "p9"⟩).2 =
      [⟨Target.roomAll ("post-" ++ "p9"), "comment-deleted",
        Payload.commentDeleted "c9" "p9"⟩] ∧
    (deleteCommentHandler ⟨[], []⟩ ⟨"u", "nat"⟩ ⟨"c9", "p9"⟩).1 =
      (⟨[], []⟩ : DB) :=
  ⟨(C10_delete_comment_always_broadcasts ⟨[], []⟩ ⟨"u", "nat"⟩ ⟨"c9", "p9"⟩).1,
   (C10_delete_comment_always_broadcasts ⟨[], []⟩ ⟨"u", "nat"⟩ ⟨"c9", "p9"⟩).2
     (by decide)⟩

end BlogRT
